import Mathlib

/-!
Verification of the receipt parsing / field-extraction pipeline of the
Reisekostenabrechnung repository, as a shallow embedding of
`backend/app/services/receipt_parsing.py` and
`backend/app/services/ocr.py` (the `simple_parse` function).

Python strings are modelled as `String`, Python floats as `ℚ` (every
number reachable in this pipeline is a finite decimal, so the decimal
arithmetic is exact), a raised exception as `Except.error` carrying the
message, the partial field dictionary as a structure of `Option` fields
(an absent dictionary key is `none`), and each `re.search` call as a
hand-rolled leftmost scan implementing exactly that pattern, with
Python's alternation and greedy/backtracking priorities.
-/

set_option linter.unusedVariables false
set_option maxRecDepth 100000

attribute [local semireducible] Rat.add Rat.mul Rat.sub Rat.inv Rat.ofScientific

namespace Reisekosten

/-- Python `str.lower` restricted to the letters occurring in this
codebase's texts and keyword lists: ASCII plus the uppercase umlauts and
the accented E. All other characters (including `ß` and `€`) are left
unchanged, matching Python on every string manipulated here. -/
def pyLowerChar (c : Char) : Char :=
  if 'A' ≤ c ∧ c ≤ 'Z' then Char.ofNat (c.toNat + 32)
  else if c = 'Ä' then 'ä'
  else if c = 'Ö' then 'ö'
  else if c = 'Ü' then 'ü'
  else if c = 'É' then 'é'
  else c

/-- Python `str.upper` on the same restricted alphabet. -/
def pyUpperChar (c : Char) : Char :=
  if 'a' ≤ c ∧ c ≤ 'z' then Char.ofNat (c.toNat - 32)
  else if c = 'ä' then 'Ä'
  else if c = 'ö' then 'Ö'
  else if c = 'ü' then 'Ü'
  else if c = 'é' then 'É'
  else c

def pyLower (s : String) : String := String.mk (s.data.map pyLowerChar)

def pyUpper (s : String) : String := String.mk (s.data.map pyUpperChar)

/-- Does `pre` occur at the very beginning of `l`? -/
def leadsWith : List Char → List Char → Bool
  | [], _ => true
  | _ :: _, [] => false
  | a :: as, b :: bs => a = b && leadsWith as bs

/-- Does `needle` occur contiguously anywhere in `hay`? -/
def hasRun (needle : List Char) : List Char → Bool
  | [] => leadsWith needle []
  | c :: t => leadsWith needle (c :: t) || hasRun needle t

/-- Python `needle in hay` for strings. -/
def pyIn (needle hay : String) : Bool := hasRun needle.data hay.data

/-- The characters Python `str.strip` removes (also the ASCII part of
regex `\s`). -/
def isPySpace (c : Char) : Bool :=
  c = ' ' || c = '\t' || c = '\n' || c = '\r' || c = Char.ofNat 11 || c = Char.ofNat 12

/-- Python `str.strip()`. -/
def pyStrip (s : String) : String :=
  String.mk (((s.data.dropWhile isPySpace).reverse.dropWhile isPySpace).reverse)

/-- Split a character list at every occurrence of `sep`, keeping empty
pieces — the semantics of Python `str.split(sep)` with an explicit
separator (and of `String.splitOn`, which is avoided because its
well-founded recursion does not reduce). -/
def splitOnChar (sep : Char) : List Char → List (List Char)
  | [] => [[]]
  | c :: t =>
      match splitOnChar sep t with
      | r :: rs => if c = sep then [] :: r :: rs else (c :: r) :: rs
      | [] => if c = sep then [[], []] else [[c]]

/-- Python `s.replace(',', '.')`. -/
def commaToDot (s : String) : String :=
  String.mk (s.data.map fun c => if c = ',' then '.' else c)

/-- Python `s.replace('-', '_')`. -/
def hyphenToUnderscore (s : String) : String :=
  String.mk (s.data.map fun c => if c = '-' then '_' else c)

/-- Value of a run of decimal digit characters. -/
def digitsToNat (l : List Char) : Nat :=
  l.foldl (fun a c => 10 * a + (c.toNat - 48)) 0

/-- Python `float()` restricted to the token shapes reachable in this
pipeline: strings of decimal digits and dots (regex-matched numeric
tokens after the `,` to `.` replacement, and pure digit runs). A token
with more than one dot, with a foreign character, or with no digit at
all raises `ValueError` in Python, modelled as `none`. -/
def pyFloat (s : String) : Option ℚ :=
  match splitOnChar '.' s.data with
  | [intPart] =>
      if intPart ≠ [] && intPart.all Char.isDigit then
        some (digitsToNat intPart)
      else none
  | [intPart, fracPart] =>
      if (intPart.all Char.isDigit && fracPart.all Char.isDigit)
          && (intPart ≠ [] || fracPart ≠ []) then
        some ((digitsToNat intPart : ℚ) +
          (digitsToNat fracPart : ℚ) / ((10 : ℚ) ^ fracPart.length))
      else none
  | _ => none

/-! ### Character classes of the regexes in `_parse_text_to_fields` -/

def isDigitOrComma (c : Char) : Bool := c.isDigit || c = ','

def isDecSep (c : Char) : Bool := c = '.' || c = ','

def isColonOrSpace (c : Char) : Bool := c = ':' || isPySpace c

def isDotOrSpace (c : Char) : Bool := c = '.' || isPySpace c

def isDotSpaceHash (c : Char) : Bool := c = '.' || isPySpace c || c = '#'

def isLowerAlnumDash (c : Char) : Bool := ('a' ≤ c && c ≤ 'z') || c.isDigit || c = '-'

def isSlashOrDot (c : Char) : Bool := c = '.' || c = '/'

/-- Match the literal `lit` at the head of `l` and return the remainder. -/
def afterLit (lit : List Char) (l : List Char) : Option (List Char) :=
  if leadsWith lit l then some (l.drop lit.length) else none

/-- Match `[0-9,]+[.,][0-9]{2}` at the head of `l` with the `+` taking
exactly `k` characters (all guaranteed inside the `[0-9,]` run), trying
`k` first and then backtracking to shorter lengths, exactly as Python's
greedy `+` does. Returns the full matched token. -/
def numTokenWith (l : List Char) : Nat → Option (List Char)
  | 0 => none
  | k + 1 =>
      match l.drop (k + 1) with
      | c1 :: c2 :: c3 :: _ =>
          if isDecSep c1 && c2.isDigit && c3.isDigit then
            some (l.take (k + 1) ++ [c1, c2, c3])
          else numTokenWith l k
      | _ => numTokenWith l k

/-- Match `[0-9,]+[.,][0-9]{2}` at the head of `l` (Python semantics). -/
def numTokenAt (l : List Char) : Option (List Char) :=
  numTokenWith l (l.takeWhile isDigitOrComma).length

/-- One anchored attempt of
`(?:gesamt|total|summe)[:\s]*([0-9,]+[.,][0-9]{2})`, returning the
captured group. The `[:\s]*` is greedy and its class is disjoint from
`[0-9,]`, so consuming the maximal run is exact. -/
def amountHere (l : List Char) : Option (List Char) :=
  match ((afterLit "gesamt".data l).orElse fun _ => afterLit "total".data l).orElse
      (fun _ => afterLit "summe".data l) with
  | some rest => numTokenAt (rest.dropWhile isColonOrSpace)
  | none => none

/-- `re.search` for the amount pattern: leftmost position wins. -/
def searchAmount : List Char → Option (List Char)
  | [] => none
  | c :: t => (amountHere (c :: t)).orElse fun _ => searchAmount t

/-- One anchored attempt of
`mwst[.\s]*([0-9]+)%[:\s]*([0-9,]+[.,][0-9]{2})`, returning the two
captured groups (percentage digits, amount token). Every greedy
star/plus here is followed by a disjoint character class, so maximal
runs are exact. -/
def vatHere (l : List Char) : Option (List Char × List Char) :=
  match afterLit "mwst".data l with
  | none => none
  | some r1 =>
      let r2 := r1.dropWhile isDotOrSpace
      let ds := r2.takeWhile Char.isDigit
      if ds.isEmpty then none
      else
        match r2.drop ds.length with
        | '%' :: r3 =>
            match numTokenAt (r3.dropWhile isColonOrSpace) with
            | some tok => some (ds, tok)
            | none => none
        | _ => none

/-- `re.search` for the VAT pattern. -/
def searchVat : List Char → Option (List Char × List Char)
  | [] => none
  | c :: t => (vatHere (c :: t)).orElse fun _ => searchVat t

/-- Match `[0-9]{k}` exactly at the head of `l`. -/
def digitsExact (k : Nat) (l : List Char) : Option (List Char × List Char) :=
  let ds := l.take k
  if ds.length = k && ds.all Char.isDigit then some (ds, l.drop k) else none

/-- The year part `[0-9]{2,4}`, greedy: four digits, then three, then
two (nothing follows it in the pattern, so first success is final). -/
def dateYear (l : List Char) : Option (List Char) :=
  match digitsExact 4 l with
  | some (ds, _) => some ds
  | none =>
      match digitsExact 3 l with
      | some (ds, _) => some ds
      | none =>
          match digitsExact 2 l with
          | some (ds, _) => some ds
          | none => none

/-- Match `[0-9]{1,2}[./][0-9]{1,2}[./][0-9]{2,4}` at the head of `l`
with the day part taking `d` digits and the month part `m` digits. -/
def dateFrom (d m : Nat) (l : List Char) : Option (List Char) :=
  match digitsExact d l with
  | none => none
  | some (ds, r1) =>
      match r1 with
      | s1 :: r2 =>
          if isSlashOrDot s1 then
            match digitsExact m r2 with
            | none => none
            | some (ms, r3) =>
                match r3 with
                | s2 :: r4 =>
                    if isSlashOrDot s2 then
                      match dateYear r4 with
                      | some ys => some (ds ++ s1 :: ms ++ s2 :: ys)
                      | none => none
                    else none
                | [] => none
          else none
      | [] => none

/-- The captured group of the date pattern at the head of `l`, trying
the greedy quantifier choices in Python's backtracking order
(day two digits before one, then month two digits before one). -/
def dateGroupHere (l : List Char) : Option (List Char) :=
  ((dateFrom 2 2 l).orElse fun _ =>
    (dateFrom 2 1 l).orElse fun _ =>
      (dateFrom 1 2 l).orElse fun _ => dateFrom 1 1 l)

/-- One anchored attempt of
`datum[:\s]*([0-9]{1,2}[./][0-9]{1,2}[./][0-9]{2,4})`. -/
def datumHere (l : List Char) : Option (List Char) :=
  match afterLit "datum".data l with
  | none => none
  | some r => dateGroupHere (r.dropWhile isColonOrSpace)

/-- `re.search` for the date pattern. -/
def searchDatum : List Char → Option (List Char)
  | [] => none
  | c :: t => (datumHere (c :: t)).orElse fun _ => searchDatum t

/-- One anchored attempt of `(?:rechnung|invoice|nr)[.\s#]*([a-z0-9-]+)`,
returning the captured group. The three label alternatives start with
distinct letters, so Python's alternative order is immaterial at a
fixed position; `[.\s#]*` is greedy with a class disjoint from
`[a-z0-9-]`, so the maximal run is exact. -/
def invoiceHere (l : List Char) : Option (List Char) :=
  match ((afterLit "rechnung".data l).orElse fun _ => afterLit "invoice".data l).orElse
      (fun _ => afterLit "nr".data l) with
  | none => none
  | some r =>
      let g := (r.dropWhile isDotSpaceHash).takeWhile isLowerAlnumDash
      if g.isEmpty then none else some g

/-- `re.search` for the invoice-number pattern. -/
def searchInvoice : List Char → Option (List Char)
  | [] => none
  | c :: t => (invoiceHere (c :: t)).orElse fun _ => searchInvoice t

/-- `re.search(r'[0-9,]+[.,][0-9]{2}', text)` as used by the confidence
scorer: only existence of a match matters. -/
def searchPrice : List Char → Option (List Char)
  | [] => none
  | c :: t => (numTokenAt (c :: t)).orElse fun _ => searchPrice t

/-! ### `datetime.strptime` for the three formats the code tries -/

/-- The date part of a Python `datetime` (the pipeline never sets a
time of day). -/
structure PyDate where
  year : Nat
  month : Nat
  day : Nat
  deriving DecidableEq, Repr

def isLeapYear (y : Nat) : Bool := (y % 4 = 0 && y % 100 ≠ 0) || y % 400 = 0

def daysInMonth (y m : Nat) : Nat :=
  if m = 2 then (if isLeapYear y then 29 else 28)
  else if m = 4 || m = 6 || m = 9 || m = 11 then 30
  else 31

/-- The validation `datetime(year, month, day)` performs (Python's
MINYEAR/MAXYEAR range and calendar validity). -/
def mkPyDate (y m d : Nat) : Option PyDate :=
  if 1 ≤ y && y ≤ 9999 && 1 ≤ m && m ≤ 12 && 1 ≤ d && d ≤ daysInMonth y m then
    some ⟨y, m, d⟩
  else none

/-- Take one or two leading digits, greedily. In the formats used here a
field is always followed by a non-digit separator or the end of the
string, so Python's alternation `(3[01]|[12]\d|0[1-9]|[1-9])` never
succeeds with one digit when two are available; out-of-range two-digit
values are rejected later by `mkPyDate`, exactly where Python's pattern
or `datetime` constructor rejects them. -/
def takeDigits12 (l : List Char) : Option (Nat × List Char) :=
  match l with
  | a :: b :: r =>
      if a.isDigit && b.isDigit then some (digitsToNat [a, b], r)
      else if a.isDigit then some (digitsToNat [a], b :: r)
      else none
  | [a] => if a.isDigit then some (digitsToNat [a], []) else none
  | [] => none

/-- `datetime.strptime(s, f)` where `f` is `%d<sep>%m<sep>%Y` (or `%y`
when `twoDigitYear`): the whole string must be consumed, `%Y` is exactly
four digits, `%y` exactly two (mapped to 2000-2068 / 1969-1999), and the
resulting date must be calendar-valid. `none` models `ValueError`. -/
def strptimeDMY (sep : Char) (twoDigitYear : Bool) (s : String) : Option PyDate :=
  match takeDigits12 s.data with
  | none => none
  | some (d, r1) =>
      match r1 with
      | c1 :: r2 =>
          if c1 = sep then
            match takeDigits12 r2 with
            | none => none
            | some (m, r3) =>
                match r3 with
                | c2 :: r4 =>
                    if c2 = sep then
                      if twoDigitYear then
                        match r4 with
                        | [a, b] =>
                            if a.isDigit && b.isDigit then
                              let yy := digitsToNat [a, b]
                              mkPyDate (if yy < 69 then 2000 + yy else 1900 + yy) m d
                            else none
                        | _ => none
                      else
                        match r4 with
                        | [a, b, c, e] =>
                            if a.isDigit && b.isDigit && c.isDigit && e.isDigit then
                              mkPyDate (digitsToNat [a, b, c, e]) m d
                            else none
                        | _ => none
                    else none
                | [] => none
          else none
      | [] => none

/-- The format loop of `_parse_text_to_fields`: try `'%d.%m.%Y'`,
`'%d/%m/%Y'`, `'%d.%m.%y'` in order, first success wins, a string no
format parses leaves the date unset. -/
def strptimeFormats (s : String) : Option PyDate :=
  ((strptimeDMY '.' false s).orElse fun _ =>
    (strptimeDMY '/' false s).orElse fun _ => strptimeDMY '.' true s)

/-! ### Data model (`schemas/travel.py`) -/

/-- `ExpenseCategory` from `backend/app/schemas/travel.py`. -/
inductive ExpenseCategory where
  | lodging
  | transport
  | meals
  | entertainment
  | other
  deriving DecidableEq, Repr

/-- The partial field dictionary built by `_parse_text_to_fields` (plus
the `category` key the orchestrator merges in). `none` is an absent
key. -/
structure Fields where
  amount : Option ℚ := none
  vat_rate : Option ℚ := none
  vat : Option ℚ := none
  date : Option PyDate := none
  merchant : Option String := none
  invoice_number : Option String := none
  payment_method : Option String := none
  currency : Option String := none
  category : Option ExpenseCategory := none
  deriving DecidableEq, Repr

deriving instance DecidableEq for Except

/-- `ReceiptParsed` from `backend/app/schemas/travel.py`, with the
pydantic field defaults. -/
structure ReceiptParsed where
  amount : Option ℚ := none
  currency : String := "EUR"
  date : Option PyDate := none
  vat : Option ℚ := none
  vat_rate : Option ℚ := none
  merchant : Option String := none
  category : Option ExpenseCategory := none
  invoice_number : Option String := none
  payment_method : Option String := none
  merchant_address : Option String := none
  merchant_tax_id : Option String := none
  parsing_confidence : Option ℚ := none
  ocr_text : Option String := none
  deriving DecidableEq, Repr

/-! ### Field Extractor (`_parse_text_to_fields`) -/

/-- Python `float(tok)` where failure raises `ValueError`, modelled as
`Except.error` with the interpolated message (Python quotes the token in
the message; the quotes are omitted here, and no claim depends on the
message text). -/
def floatOrErr (tok : String) : Except String ℚ :=
  match pyFloat tok with
  | some q => Except.ok q
  | none => Except.error ("could not convert string to float: " ++ tok)

/-- The amount step: `re.search` for the total pattern on the lowered
text; on a match, `float(group(1).replace(',', '.'))` is **not**
guarded, so a malformed token raises. -/
def amountStep (lowerData : List Char) : Except String (Option ℚ) :=
  match searchAmount lowerData with
  | some g =>
      match floatOrErr (commaToDot (String.mk g)) with
      | Except.ok q => Except.ok (some q)
      | Except.error e => Except.error e
  | none => Except.ok none

/-- The VAT step: on a match, `float(group(1))` (a pure digit run, which
cannot fail) populates the rate and the unguarded
`float(group(2).replace(',', '.'))` the amount. -/
def vatStep (lowerData : List Char) : Except String (Option (ℚ × ℚ)) :=
  match searchVat lowerData with
  | some (rateDigits, amtTok) =>
      match floatOrErr (commaToDot (String.mk amtTok)) with
      | Except.ok v => Except.ok (some ((digitsToNat rateDigits : ℚ), v))
      | Except.error e => Except.error e
  | none => Except.ok none

/-- The date step: `re.search` for the date pattern, then the format
loop; a `ValueError` from `strptime` is caught and skipped, so this
step never raises. -/
def dateStep (lowerData : List Char) : Option PyDate :=
  match searchDatum lowerData with
  | some g => strptimeFormats (String.mk g)
  | none => none

/-- The merchant step: strip every `'\n'`-separated line, drop the blank
ones, and take the first remaining line verbatim. -/
def merchantStep (ocr_text : String) : Option String :=
  ((((splitOnChar '\n' ocr_text.data).map fun l => pyStrip (String.mk l)).filter
    fun s => s ≠ "").head?)

/-- The fixed ordered payment-pattern list from the source. -/
def payment_patterns : List String :=
  ["ec-karte", "kreditkarte", "bargeld", "überweisung", "paypal"]

/-- The payment loop: `for pattern in payment_patterns: if
re.search(pattern, text.lower()): set and break`. Each pattern is a
plain literal, so `re.search` is substring containment. -/
def findPayment : List String → String → Option String
  | [], _ => none
  | p :: ps, lowerText =>
      if pyIn p lowerText then some (hyphenToUnderscore p) else findPayment ps lowerText

/-- `_parse_text_to_fields` from `receipt_parsing.py`. The two unguarded
`float` conversions can raise, which aborts the whole extraction
(`Except.error`); every other step is total or guarded. -/
def _parse_text_to_fields (ocr_text : String) : Except String Fields :=
  match amountStep (pyLower ocr_text).data with
  | Except.error e => Except.error e
  | Except.ok amount =>
      match vatStep (pyLower ocr_text).data with
      | Except.error e => Except.error e
      | Except.ok vatPair =>
          Except.ok
            { amount := amount
              vat_rate := vatPair.map Prod.fst
              vat := vatPair.map Prod.snd
              date := dateStep (pyLower ocr_text).data
              merchant := merchantStep ocr_text
              invoice_number := (searchInvoice (pyLower ocr_text).data).map String.mk
              payment_method := findPayment payment_patterns (pyLower ocr_text)
              currency := some "EUR" }

/-! ### Categorizer (`_auto_categorize`) -/

def hotel_keywords : List String :=
  ["hotel", "hostel", "pension", "übernachtung", "accommodation", "zimmer"]

def transport_keywords : List String :=
  ["bahn", "flug", "airline", "taxi", "uber", "bus", "ticket", "fahrkarte"]

def meal_keywords : List String :=
  ["restaurant", "café", "bar", "pizza", "mcdonalds", "burger", "bistro", "essen"]

def entertainment_keywords : List String :=
  ["kino", "theater", "museum", "ticket", "event", "konzert"]

/-- `any(keyword in merchant or keyword in ocr_lower for keyword in
kws)` where `merchant` is the lowered merchant value (default `""`) and
`ocr_lower` the lowered full text. -/
def categoryHit (kws : List String) (parsed_data : Fields) (ocr_text : String) : Bool :=
  kws.any fun k =>
    pyIn k (pyLower (parsed_data.merchant.getD "")) || pyIn k (pyLower ocr_text)

/-- `_auto_categorize` from `receipt_parsing.py`: the four keyword sets
are tested in the source's order, first hit wins, fallback `other`. -/
def _auto_categorize (parsed_data : Fields) (ocr_text : String) : ExpenseCategory :=
  if categoryHit hotel_keywords parsed_data ocr_text then ExpenseCategory.lodging
  else if categoryHit transport_keywords parsed_data ocr_text then ExpenseCategory.transport
  else if categoryHit meal_keywords parsed_data ocr_text then ExpenseCategory.meals
  else if categoryHit entertainment_keywords parsed_data ocr_text then ExpenseCategory.entertainment
  else ExpenseCategory.other

/-! ### Confidence Scorer (`_calculate_confidence`) -/

/-- Python truthiness of `parsed_data.get(key)` for a float-valued key:
the key is present and its value is nonzero. -/
def truthyQ : Option ℚ → Bool
  | some q => q ≠ 0
  | none => false

/-- Python truthiness of `parsed_data.get(key)` for a string-valued key:
present and non-empty. -/
def truthyStr : Option String → Bool
  | some s => s ≠ ""
  | none => false

/-- Python truthiness of the whole dictionary (`if parsed_data:`): some
key is present. -/
def fieldsNonempty (p : Fields) : Bool :=
  p.amount.isSome || p.vat_rate.isSome || p.vat.isSome || p.date.isSome ||
    p.merchant.isSome || p.invoice_number.isSome || p.payment_method.isSome ||
    p.currency.isSome || p.category.isSome

/-- `_calculate_confidence` from `receipt_parsing.py`. A present
`datetime` is always truthy, hence the bare `isSome` for the date. -/
def _calculate_confidence (parsed_data : Fields) (ocr_text : String) : ℚ :=
  let c0 : ℚ := if fieldsNonempty parsed_data then 30 else 0
  let c1 := c0 + (if truthyQ parsed_data.amount then 25 else 0)
  let c2 := c1 + (if truthyStr parsed_data.merchant then 20 else 0)
  let c3 := c2 + (if parsed_data.date.isSome then 15 else 0)
  let c4 := c3 + (if truthyQ parsed_data.vat then 10 else 0)
  let c5 := c4 + (if ocr_text.length > 100 then 5 else 0)
  let c6 := c5 + (if (searchPrice ocr_text.data).isSome then 5 else 0)
  min c6 100

/-! ### Parsing Orchestrator (`parse_receipt_file`) -/

/-- The hard-coded placeholder string `_extract_text_ocr` returns (the
`TODO` stub in the source), byte for byte. -/
def placeholder_ocr_text : String :=
  "\n        HOTEL BERLIN\n        Friedrichstraße 123\n        10117 Berlin\n        \n        Rechnung Nr: 2024-001234\n        Datum: 15.01.2024\n        \n        Übernachtung Business Room   87,50 €\n        MwSt. 19%                    14,01 €\n        Gesamt                      101,51 €\n        \n        Zahlung: EC-Karte\n        USt-IdNr: DE123456789\n        "

/-- `_extract_text_ocr` from `receipt_parsing.py`: OCR is not
implemented; both arguments are ignored, no file is touched, and the
placeholder is returned unconditionally. -/
def _extract_text_ocr (file_path mime_type : String) : String :=
  placeholder_ocr_text

/-- Assembling `ReceiptParsed(**parsed_data, parsing_confidence=...,
ocr_text=...)`: present keys override the pydantic defaults. On the
success path `currency` is always present, but the `getD` mirrors the
keyword-splat semantics. -/
def receiptFromFields (p : Fields) (confidence : ℚ) (text : String) : ReceiptParsed :=
  { amount := p.amount
    currency := p.currency.getD "EUR"
    date := p.date
    vat := p.vat
    vat_rate := p.vat_rate
    merchant := p.merchant
    category := p.category
    invoice_number := p.invoice_number
    payment_method := p.payment_method
    merchant_address := none
    merchant_tax_id := none
    parsing_confidence := some confidence
    ocr_text := some text }

/-- The `try` block of `parse_receipt_file`: steps 1-4 in order, any
raised exception propagating out. -/
def run_parse_pipeline (file_path mime_type : String) : Except String ReceiptParsed :=
  let ocr_text := _extract_text_ocr file_path mime_type
  match _parse_text_to_fields ocr_text with
  | Except.error e => Except.error e
  | Except.ok parsed =>
      let category := _auto_categorize parsed ocr_text
      let parsed := { parsed with category := some category }
      let confidence := _calculate_confidence parsed ocr_text
      Except.ok (receiptFromFields parsed confidence ocr_text)

/-- The `except` branch of `parse_receipt_file`: a zero-confidence
result carrying the error message, every other field at its default. -/
def parse_failed_result (e : String) : ReceiptParsed :=
  { parsing_confidence := some 0, ocr_text := some ("Parsing failed: " ++ e) }

/-- `parse_receipt_file` from `receipt_parsing.py`: the `try/except`
orchestrator. -/
def parse_receipt_file (file_path mime_type : String) : ReceiptParsed :=
  match run_parse_pipeline file_path mime_type with
  | Except.ok r => r
  | Except.error e => parse_failed_result e

/-! ### `simple_parse` (`backend/app/services/ocr.py`) -/

/-- The result dictionary of `simple_parse`: all four keys are always
present, `None`-valued when nothing was extracted. -/
structure SimpleParsed where
  amount : Option ℚ
  currency : Option String
  date : Option PyDate
  merchant : Option String
  deriving DecidableEq, Repr

/-- Match `\d+[\.,]\d{2}` at the head of `l`, returning the token and
the remainder. The greedy `\d+` is followed by the disjoint class
`[\.,]`, so the maximal digit run is exact. -/
def simpleAmountToken (l : List Char) : Option (List Char × List Char) :=
  let run := l.takeWhile Char.isDigit
  if run.isEmpty then none
  else
    match l.drop run.length with
    | c1 :: c2 :: c3 :: rest =>
        if isDecSep c1 && c2.isDigit && c3.isDigit then some (run ++ [c1, c2, c3], rest)
        else none
    | _ => none

/-- The currency alternatives of `_amount_re`, tried in pattern order
(their first characters differ, so order is immaterial). -/
def currencyAlternatives : List String := ["EUR", "€", "USD", "CHF"]

/-- Match `(EUR|€|USD|CHF)?` case-insensitively (the pattern carries
`re.IGNORECASE`) at the head of `l`, returning the text as it appears. -/
def matchCurrency (l : List Char) : Option (List Char) :=
  currencyAlternatives.findSome? fun alt =>
    let pre := l.take alt.data.length
    if pre.length = alt.data.length && pre.map pyLowerChar = alt.data.map pyLowerChar then
      some pre
    else none

/-- The optional `\s?` before the currency group, greedy. If it consumes
a space and the currency then fails, backtracking to the empty match
cannot help because no alternative starts with a space. -/
def skipOneSpace (l : List Char) : List Char :=
  match l with
  | c :: t => if isPySpace c then t else c :: t
  | [] => []

/-- One anchored attempt of `(\d+[\.,]\d{2})\s?(EUR|€|USD|CHF)?`,
returning group 1 and the optional group 2. -/
def simpleAmountHere (l : List Char) : Option (List Char × Option (List Char)) :=
  match simpleAmountToken l with
  | some (tok, rest) => some (tok, matchCurrency (skipOneSpace rest))
  | none => none

/-- `_amount_re.search`: leftmost scan honouring the `(?<!\d)`
lookbehind — a position preceded by a digit cannot start a match. -/
def searchSimpleAmount : Option Char → List Char → Option (List Char × Option (List Char))
  | _, [] => none
  | prev, c :: t =>
      let hereOk : Bool :=
        match prev with
        | some p => !p.isDigit
        | none => true
      match (if hereOk then simpleAmountHere (c :: t) else none) with
      | some r => some r
      | none => searchSimpleAmount (some c) t

def isSimpleDateSep (c : Char) : Bool := c = '.' || c = '/' || c = '-'

/-- One anchored attempt of the `_date_re` pattern: two digits, a
separator (dot, slash or dash), two digits, a separator, then `\d{2,4}`.
The year part is greedy with nothing after it, capped at four digits. -/
def simpleDateHere (l : List Char) : Option (List Char) :=
  match l with
  | a :: b :: s1 :: c :: d :: s2 :: rest =>
      if a.isDigit && b.isDigit && isSimpleDateSep s1 && c.isDigit && d.isDigit &&
          isSimpleDateSep s2 then
        let ys := (rest.takeWhile Char.isDigit).take 4
        if 2 ≤ ys.length then some ([a, b, s1, c, d, s2] ++ ys) else none
      else none
  | _ => none

/-- `_date_re.search`. -/
def searchSimpleDate : List Char → Option (List Char)
  | [] => none
  | c :: t => (simpleDateHere (c :: t)).orElse fun _ => searchSimpleDate t

/-- Python `cur.replace("€", "EUR")` on the matched currency text. -/
def replaceEuro : List Char → List Char
  | [] => []
  | c :: t => if c = '€' then 'E' :: 'U' :: 'R' :: replaceEuro t else c :: replaceEuro t

/-- `simple_parse` from `ocr.py`: best-effort amount/currency/date plus
the first-line merchant heuristic truncated to 255 characters.
`splitlines` is modelled as splitting on `'\n'`, the only line
separator in this repository's texts. -/
def simple_parse (text : String) : SimpleParsed :=
  let amtMatch := searchSimpleAmount none text.data
  let amount := amtMatch.bind fun pr => pyFloat (commaToDot (String.mk pr.1))
  let currency := amtMatch.bind fun pr =>
    pr.2.map fun cs => pyUpper (String.mk (replaceEuro cs))
  let date := (searchSimpleDate text.data).bind fun g =>
    let ds := String.mk (g.map fun c => if c = '/' || c = '-' then '.' else c)
    (strptimeDMY '.' false ds).orElse fun _ => strptimeDMY '.' true ds
  let stripped := pyStrip text
  let merchant :=
    if stripped = "" then none
    else some (String.mk (((splitOnChar '\n' stripped.data).headD []).take 255))
  { amount := amount, currency := currency, date := date, merchant := merchant }

/-! ### Statements derived from the specification's wording -/

/-- The confidence formula exactly as the specification words it: a
bonus whenever the field *is present*, with no truthiness proviso.
Stated from the spec for comparison with `_calculate_confidence`. -/
def confidence_per_spec (p : Fields) (t : String) : ℚ :=
  min ((if fieldsNonempty p then 30 else 0) + (if p.amount.isSome then 25 else 0) +
    (if p.merchant.isSome then 20 else 0) + (if p.date.isSome then 15 else 0) +
    (if p.vat.isSome then 10 else 0) + (if t.length > 100 then 5 else 0) +
    (if (searchPrice t.data).isSome then 5 else 0)) 100

/-- The categorizer's fixed priority order, as data. -/
def category_priority : List (List String × ExpenseCategory) :=
  [(hotel_keywords, ExpenseCategory.lodging),
   (transport_keywords, ExpenseCategory.transport),
   (meal_keywords, ExpenseCategory.meals),
   (entertainment_keywords, ExpenseCategory.entertainment)]

/-! ### Helper lemmas -/

lemma ite_zero_nonneg (b : Prop) [Decidable b] (q : ℚ) (hq : 0 ≤ q) :
    0 ≤ ite b q 0 := by
  split
  · exact hq
  · exact le_refl 0

lemma calculate_confidence_bounds (p : Fields) (t : String) :
    0 ≤ _calculate_confidence p t ∧ _calculate_confidence p t ≤ 100 := by
  unfold _calculate_confidence
  refine ⟨le_min ?_ (by norm_num), min_le_right _ _⟩
  repeat' apply add_nonneg
  all_goals exact ite_zero_nonneg _ _ (by norm_num)

lemma findPayment_eq (ps : List String) (s : String) :
    findPayment ps s = (ps.find? fun p => pyIn p s).map hyphenToUnderscore := by
  induction ps with
  | nil => rfl
  | cons p ps ih =>
      unfold findPayment
      by_cases h : pyIn p s
      · simp [List.find?, h]
      · simp [List.find?, h, ih]

lemma parse_receipt_file_const (a b c d : String) :
    parse_receipt_file a b = parse_receipt_file c d := rfl

/-! ### The claims -/

/-- C1: for every file path and MIME type, `parse_receipt_file` returns
a `ReceiptParsed` (it is total by construction): the assembled pipeline
result when no step raised, and otherwise — whenever some step raised
the exception `e` — the fallback record with `parsing_confidence = 0`,
`ocr_text = "Parsing failed: " ++ e`, and every other field at its
schema default. -/
theorem claim_c1 (file_path mime_type : String) :
    run_parse_pipeline file_path mime_type =
      Except.ok (parse_receipt_file file_path mime_type) ∨
    ∃ e, run_parse_pipeline file_path mime_type = Except.error e ∧
      parse_receipt_file file_path mime_type =
        { amount := none, currency := "EUR", date := none, vat := none, vat_rate := none,
          merchant := none, category := none, invoice_number := none, payment_method := none,
          merchant_address := none, merchant_tax_id := none,
          parsing_confidence := some 0, ocr_text := some ("Parsing failed: " ++ e) } := by
  cases h : run_parse_pipeline file_path mime_type with
  | ok r =>
      left
      simp [parse_receipt_file, h]
  | error e =>
      right
      exact ⟨e, rfl, by simp [parse_receipt_file, h, parse_failed_result]⟩

/-- C2 counterexample: the claim awards +25 whenever `amount` is
*present*, but the code tests Python truthiness, so a present amount of
`0.0` earns nothing: the code computes 30 where the claimed formula
gives 55. -/
theorem claim_c2_cex :
    _calculate_confidence { amount := some 0 } "" = 30 ∧
    confidence_per_spec { amount := some 0 } "" = 55 ∧ (30 : ℚ) ≠ 55 := by
  decide

/-- C2 (amended): the confidence is the additive score clamped to 100,
with each field bonus conditioned on the field being present **and
truthy** (nonzero for `amount`/`vat`, non-empty for `merchant`; a
present date is always truthy); the clamp is exercised by a concrete
input whose raw sum 30+25+20+15+10+5+5 = 110 scores exactly 100. -/
theorem claim_c2 :
    (∀ (p : Fields) (t : String),
      _calculate_confidence p t =
        min ((if fieldsNonempty p then 30 else 0) + (if truthyQ p.amount then 25 else 0) +
          (if truthyStr p.merchant then 20 else 0) + (if p.date.isSome then 15 else 0) +
          (if truthyQ p.vat then 10 else 0) + (if t.length > 100 then 5 else 0) +
          (if (searchPrice t.data).isSome then 5 else 0)) 100) ∧
    (30 : ℚ) + 25 + 20 + 15 + 10 + 5 + 5 = 110 ∧
    _calculate_confidence
      { amount := some 87.5, merchant := some "Hotel Berlin",
        date := some (PyDate.mk 2024 1 15), vat := some 14.01 }
      "HOTEL BERLIN Rechnung Nr 2024-001234 Datum 15.01.2024 Uebernachtung Business Room 87,50 EUR MwSt 19 Prozent" = 100 := by
  refine ⟨fun p t => rfl, by norm_num, by decide⟩

/-- C3: evaluation of the pipeline on the hotel-receipt text. Every
expectation of the claim holds — `amount = 101.51`, `vat = 14.01`,
`vat_rate = 19`, `merchant = "HOTEL BERLIN"`, `date` = Jan 15 2024,
`currency = "EUR"`, `category = lodging`, confidence `100 ≥ 80` — except
the invoice number: the regex label alternative `rechnung` matches
first, `[.\s#]*` stops at the space before `Nr`, and the capture group
grabs the literal token `nr`, so `invoice_number = "nr"` does not
contain `2024-001234` (the repository's own test asserts it should). -/
theorem claim_c3 :
    parse_receipt_file "receipt.jpg" "image/jpeg" =
      { amount := some 101.51, currency := "EUR", date := some (PyDate.mk 2024 1 15),
        vat := some 14.01, vat_rate := some 19, merchant := some "HOTEL BERLIN",
        category := some ExpenseCategory.lodging, invoice_number := some "nr",
        payment_method := some "ec_karte", merchant_address := none, merchant_tax_id := none,
        parsing_confidence := some 100, ocr_text := some placeholder_ocr_text } ∧
    pyIn "2024-001234" "nr" = false ∧ (80 : ℚ) ≤ 100 := by
  refine ⟨by decide, by decide, by norm_num⟩

/-- C4 counterexample: the Field Extractor *does* raise. On the input
`"gesamt 12,34,56"` the amount regex matches the token `12,34,56`; after
the comma replacement the unguarded `float("12.34.56")` raises
`ValueError`, aborting extraction of every field — nothing is "silently
skipped for that field only". -/
theorem claim_c4_cex :
    _parse_text_to_fields "gesamt 12,34,56" =
      Except.error "could not convert string to float: 12.34.56" := by
  decide

/-- C4 (amended): a matched amount or VAT token that `float` cannot
convert (e.g. one containing multiple commas) raises out of the
extractor and aborts all fields (the exception is only caught at the
orchestrator); only the *date* field's parse failures are silently
skipped for that field alone, other fields still populating. -/
theorem claim_c4 :
    _parse_text_to_fields "gesamt 12,34,56" =
      Except.error "could not convert string to float: 12.34.56" ∧
    _parse_text_to_fields "mwst 19% 1,2,34" =
      Except.error "could not convert string to float: 1.2.34" ∧
    _parse_text_to_fields "datum: 99.99.9999 gesamt 5,00" =
      Except.ok
        { amount := some 5, date := none,
          merchant := some "datum: 99.99.9999 gesamt 5,00", currency := some "EUR" } := by
  refine ⟨by decide, by decide, by decide⟩

/-- C5 counterexample: on empty text the pipeline's field map is *not*
empty — the extractor always inserts `currency = "EUR"` and the
orchestrator merges `category = other` — so the confidence computed in
the pipeline is the non-empty base 30, not the claimed 0. -/
theorem claim_c5_cex :
    _calculate_confidence { currency := some "EUR", category := some ExpenseCategory.other }
      "" = 30 ∧ (30 : ℚ) ≠ 0 := by
  decide

/-- C5 (amended): `simple_parse("")` returns the all-`None` dictionary
and the pipeline extractor a near-empty map without raising; the
categorizer yields `other`; but the confidence computed on that map is
30 (the map holds `currency` and `category`, triggering the non-empty
base case) — `_calculate_confidence` yields 0 only on a literally empty
map with empty text. -/
theorem claim_c5 :
    simple_parse "" = { amount := none, currency := none, date := none, merchant := none } ∧
    _parse_text_to_fields "" = Except.ok { currency := some "EUR" } ∧
    _auto_categorize { currency := some "EUR" } "" = ExpenseCategory.other ∧
    _calculate_confidence { currency := some "EUR", category := some ExpenseCategory.other }
      "" = 30 ∧
    _calculate_confidence {} "" = 0 := by
  refine ⟨by decide, by decide, by decide, by decide, by decide⟩

/-- C7 counterexample: a nonexistent file path does *not* produce the
failure result — `_extract_text_ocr` never touches the file system, so
`parse_receipt_file` returns the ordinary placeholder parse with
confidence 100 and an `ocr_text` that does not start with
`"Parsing failed:"`. -/
theorem claim_c7_cex :
    (parse_receipt_file "/does/not/exist.png" "image/png").parsing_confidence = some 100 ∧
    leadsWith "Parsing failed:".data
      ((parse_receipt_file "/does/not/exist.png" "image/png").ocr_text.getD "").data = false ∧
    (100 : ℚ) ≠ 0 := by
  refine ⟨by decide, by decide, by norm_num⟩

/-- C7 (amended): text acquisition never raises and ignores the file
path, so for *every* path — including nonexistent ones —
`parse_receipt_file` returns the normal placeholder parse with
`parsing_confidence = 100`, whose `ocr_text` does not start with
`"Parsing failed:"`; the zero-confidence failure shape would arise only
if a pipeline step raised. -/
theorem claim_c7 (file_path mime_type : String) :
    (parse_receipt_file file_path mime_type).parsing_confidence = some 100 ∧
    leadsWith "Parsing failed:".data
      ((parse_receipt_file file_path mime_type).ocr_text.getD "").data = false := by
  have h : parse_receipt_file file_path mime_type = parse_receipt_file "x" "y" :=
    parse_receipt_file_const file_path mime_type "x" "y"
  rw [h]
  exact ⟨by decide, by decide⟩

/-- C6: the categorizer is first-match over the fixed priority list
lodging, transport, meals, entertainment (keyword in lowered merchant or
lowered full text), with fallback `other`; and any text containing
`ticket` whose lodging keywords all miss is categorized `transport` —
never `entertainment` — because `ticket` sits in the transport set,
which is tested before entertainment. -/
theorem claim_c6 :
    (∀ (p : Fields) (t : String),
      _auto_categorize p t =
        (((category_priority.find? fun pr => categoryHit pr.1 p t).map Prod.snd).getD
          ExpenseCategory.other)) ∧
    ∀ (p : Fields) (t : String), pyIn "ticket" (pyLower t) = true →
      categoryHit hotel_keywords p t = false →
      _auto_categorize p t = ExpenseCategory.transport := by
  constructor
  · intro p t
    unfold _auto_categorize category_priority
    by_cases h1 : categoryHit hotel_keywords p t <;>
      by_cases h2 : categoryHit transport_keywords p t <;>
        by_cases h3 : categoryHit meal_keywords p t <;>
          by_cases h4 : categoryHit entertainment_keywords p t <;>
            simp [List.find?, h1, h2, h3, h4]
  · intro p t h1 h2
    have ht : categoryHit transport_keywords p t = true := by
      unfold categoryHit
      rw [List.any_eq_true]
      refine ⟨"ticket", by simp [transport_keywords], ?_⟩
      simp [h1]
    unfold _auto_categorize
    simp [h2, ht]

/-- C6 witness: a concrete text containing `ticket` and missing every
lodging keyword, categorized `transport`. -/
theorem claim_c6_witness :
    pyIn "ticket" (pyLower "Ticket 12") = true ∧
    categoryHit hotel_keywords {} "Ticket 12" = false ∧
    _auto_categorize {} "Ticket 12" = ExpenseCategory.transport :=
  ⟨by decide, by decide, claim_c6.2 {} "Ticket 12" (by decide) (by decide)⟩

/-- C8: every `ReceiptParsed` the orchestrator can return carries a set
`parsing_confidence` in `[0, 100]`: on the success path it is the
clamped additive score, and on the exception-fallback path it is 0. -/
theorem claim_c8 :
    (∀ (file_path mime_type : String), ∃ c,
      (parse_receipt_file file_path mime_type).parsing_confidence = some c ∧
        0 ≤ c ∧ c ≤ 100) ∧
    ∀ e, ∃ c, (parse_failed_result e).parsing_confidence = some c ∧ 0 ≤ c ∧ c ≤ 100 := by
  constructor
  · intro fp mt
    cases h : _parse_text_to_fields (_extract_text_ocr fp mt) with
    | error e =>
        refine ⟨0, ?_, le_refl 0, by norm_num⟩
        simp [parse_receipt_file, run_parse_pipeline, h, parse_failed_result]
    | ok parsed =>
        refine ⟨_calculate_confidence
            { parsed with category := some (_auto_categorize parsed (_extract_text_ocr fp mt)) }
            (_extract_text_ocr fp mt), ?_,
          (calculate_confidence_bounds _ _).1, (calculate_confidence_bounds _ _).2⟩
        simp [parse_receipt_file, run_parse_pipeline, h, receiptFromFields]
  · intro e
    exact ⟨0, rfl, le_refl 0, by norm_num⟩

/-- C9: whenever the extractor succeeds, the `payment_method` field is
the first entry of the fixed ordered pattern list that occurs anywhere
in the lowered text — list order, not position in the text, decides —
with hyphens replaced by underscores, and is unset when no entry
occurs. -/
theorem claim_c9 (text : String) (f : Fields)
    (h : _parse_text_to_fields text = Except.ok f) :
    f.payment_method =
      ((payment_patterns.find? fun p => pyIn p (pyLower text)).map hyphenToUnderscore) := by
  unfold _parse_text_to_fields at h
  cases ha : amountStep (pyLower text).data with
  | error e => rw [ha] at h; exact absurd h (by simp)
  | ok amount =>
      rw [ha] at h
      cases hv : vatStep (pyLower text).data with
      | error e => rw [hv] at h; exact absurd h (by simp)
      | ok vatPair =>
          rw [hv] at h
          simp only [Except.ok.injEq] at h
          rw [← h]
          rw [findPayment_eq]

/-- C9 witness: in `"mit paypal oder bargeld"` the token `paypal` occurs
earlier by position, but `bargeld` comes first in the pattern list, so
the extracted payment method is `bargeld`. -/
theorem claim_c9_witness :
    ∃ f, _parse_text_to_fields "mit paypal oder bargeld" = Except.ok f ∧
      f.payment_method = some "bargeld" := by
  refine ⟨_, (by decide :
    _parse_text_to_fields "mit paypal oder bargeld" =
      Except.ok
        { merchant := some "mit paypal oder bargeld", currency := some "EUR",
          payment_method := some "bargeld" }), ?_⟩
  rw [claim_c9 "mit paypal oder bargeld" _ (by decide)]
  decide

/-- C10: the text-acquisition step returns the same hard-coded
placeholder for every `(file_path, mime_type)` pair (it is a pure
constant — no file access, no exception), and consequently
`parse_receipt_file` returns the identical `ReceiptParsed` for every
input pair. -/
theorem claim_c10 :
    (∀ (file_path mime_type : String),
      _extract_text_ocr file_path mime_type = placeholder_ocr_text) ∧
    ∀ (fp1 mt1 fp2 mt2 : String), parse_receipt_file fp1 mt1 = parse_receipt_file fp2 mt2 :=
  ⟨fun _ _ => rfl, fun fp1 mt1 fp2 mt2 => parse_receipt_file_const fp1 mt1 fp2 mt2⟩

end Reisekosten
